import Mathlib

/-!
Verification development for the natural-language task interpretation pipeline
of the Integrated-Logistics-System backend.

The TypeScript sources embedded here:
- `src/ai/workflows/task-creation.workflow.ts` (`TaskCreationWorkflow`)
- `src/ai/workflows/project-analysis.workflow.ts` (`AdvancedTaskCreationWorkflow`)
- `AiService.fallbackParsing` (ai service file)

JavaScript dynamic values are modelled by the inductive type `Jsv`
(undefined, null, NaN, booleans, numbers as rationals, strings, arrays,
objects). Numbers are embedded as rationals: every numeric literal and
every arithmetic step appearing in the pipeline is exact at that
granularity. String lengths and slices follow JavaScript's UTF-16 code
unit semantics. The model call (`ollama.generate`) is an external
collaborator; it is modelled by an environment supplying, for each of the
two calls a pipeline run makes, either a raw response string or a thrown
error.
-/

/-- JavaScript runtime values as they occur in the pipeline: the JSON value
universe extended with `undefined` and `NaN`. -/
inductive Jsv where
  | undefined : Jsv
  | null : Jsv
  | nan : Jsv
  | bool : Bool → Jsv
  | num : ℚ → Jsv
  | str : String → Jsv
  | arr : List Jsv → Jsv
  | obj : List (String × Jsv) → Jsv
deriving Repr

/-- Property access `o.k` (also covering `o?.k` since missing members give
`undefined`): the latest binding of a key wins, as in JavaScript object
literals and spreads; access on a non-object yields `undefined`. -/
def getField (v : Jsv) (k : String) : Jsv :=
  match v with
  | .obj kvs =>
    match kvs.reverse.find? (fun kv => kv.1 = k) with
    | some kv => kv.2
    | none => .undefined
  | _ => .undefined

/-- JavaScript truthiness. -/
def truthy : Jsv → Bool
  | .undefined => false
  | .null => false
  | .nan => false
  | .bool b => b
  | .num q => q ≠ 0
  | .str s => s ≠ ""
  | .arr _ => true
  | .obj _ => true

/-- Logical-or `a || b`: the left operand when truthy, otherwise the right. -/
def jsOr (a b : Jsv) : Jsv := if truthy a then a else b

/-- UTF-16 code-unit length of a string (JavaScript `.length`). -/
def utf16Len (s : String) : Nat :=
  s.foldl (fun n c => n + (if c.toNat ≥ 0x10000 then 2 else 1)) 0

/-- Longest character prefix fitting in `n` UTF-16 code units
(JavaScript `.slice(0, n)`; an astral character straddling the cut is
dropped rather than split into a lone surrogate). -/
def utf16Take (n : Nat) (s : String) : String :=
  (s.foldl
    (fun acc c =>
      let w := if c.toNat ≥ 0x10000 then 2 else 1
      if acc.2 + w ≤ n then (acc.1.push c, acc.2 + w) else (acc.1, n + 1))
    (("", 0) : String × Nat)).1

/-- JSON whitespace characters. -/
def isJsonWs (c : Char) : Bool :=
  c = ' ' || c = '\t' || c = '\n' || c = '\r'

/-- Drop leading JSON whitespace. -/
def skipWs : List Char → List Char
  | c :: cs => if isJsonWs c then skipWs cs else c :: cs
  | [] => []

/-- Decimal digit value. -/
def digitVal (c : Char) : Option Nat :=
  if '0' ≤ c ∧ c ≤ '9' then some (c.toNat - '0'.toNat) else none

/-- Hexadecimal digit value. -/
def hexVal (c : Char) : Option Nat :=
  if '0' ≤ c ∧ c ≤ '9' then some (c.toNat - '0'.toNat)
  else if 'a' ≤ c ∧ c ≤ 'f' then some (c.toNat - 'a'.toNat + 10)
  else if 'A' ≤ c ∧ c ≤ 'F' then some (c.toNat - 'A'.toNat + 10)
  else none

/-- Split a maximal run of decimal digits off the front. -/
def takeDigits : List Char → (List Char × List Char)
  | c :: cs =>
    if (digitVal c).isSome then
      let r := takeDigits cs
      (c :: r.1, r.2)
    else ([], c :: cs)
  | [] => ([], [])

/-- Numeric value of a digit list. -/
def digitsToNat (ds : List Char) : Nat :=
  ds.foldl (fun n c => 10 * n + ((digitVal c).getD 0)) 0

/-- Rational addition in a form the elaborator can evaluate on literals
(`Rat.add` is irreducible); provably equal to `+` (`qAdd_eq`). -/
def qAdd (a b : ℚ) : ℚ :=
  mkRat (a.num * b.den + b.num * a.den) (a.den * b.den)

/-- Rational multiplication in a form the elaborator can evaluate on
literals; provably equal to `*` (`qMul_eq`). -/
def qMul (a b : ℚ) : ℚ :=
  mkRat (a.num * b.num) (a.den * b.den)

/-- Parse a JSON number (`-? (0 | [1-9][0-9]*) frac? exp?`), returning its
exact rational value and the remaining input. -/
def parseJNumber (cs : List Char) : Option (ℚ × List Char) :=
  let (neg, cs1) := match cs with
    | '-' :: rest => (true, rest)
    | _ => (false, cs)
  match takeDigits cs1 with
  | ([], _) => none
  | (d :: ds, cs2) =>
    if d = '0' ∧ ds ≠ [] then none
    else
      let intPart : ℚ := (digitsToNat (d :: ds) : ℚ)
      let (fracPart, cs3) : ℚ × List Char :=
        match cs2 with
        | '.' :: rest =>
          match takeDigits rest with
          | ([], _) => (0, '.' :: rest)
          | (fs, rest2) => (mkRat (digitsToNat fs) (10 ^ fs.length), rest2)
        | _ => (0, cs2)
      match cs3 with
      | '.' :: _ => none
      | _ =>
        let base := qAdd intPart fracPart
        let expParsed : Option (ℚ × List Char) :=
          match cs3 with
          | c :: rest =>
            if c = 'e' ∨ c = 'E' then
              let (eneg, rest1) := match rest with
                | '-' :: r => (true, r)
                | '+' :: r => (false, r)
                | _ => (false, rest)
              match takeDigits rest1 with
              | ([], _) => none
              | (es, rest2) =>
                let e := digitsToNat es
                some ((if eneg then qMul base (mkRat 1 (10 ^ e)) else qMul base (mkRat (10 ^ e) 1)), rest2)
            else some (base, c :: rest)
          | [] => some (base, [])
        match expParsed with
        | none => none
        | some (q, rest) => some ((if neg then -q else q), rest)

/-- Parse the body of a JSON string literal (after the opening quote),
handling the JSON escapes and surrogate pairs; a lone surrogate escape is
rejected. -/
def parseJString (fuel : Nat) (cs : List Char) (acc : String) : Option (String × List Char) :=
  match fuel with
  | 0 => none
  | fuel + 1 =>
    match cs with
    | [] => none
    | '"' :: rest => some (acc, rest)
    | '\\' :: e :: rest =>
      match e with
      | '"' => parseJString fuel rest (acc.push '"')
      | '\\' => parseJString fuel rest (acc.push '\\')
      | '/' => parseJString fuel rest (acc.push '/')
      | 'b' => parseJString fuel rest (acc.push (Char.ofNat 8))
      | 'f' => parseJString fuel rest (acc.push (Char.ofNat 12))
      | 'n' => parseJString fuel rest (acc.push '\n')
      | 'r' => parseJString fuel rest (acc.push '\r')
      | 't' => parseJString fuel rest (acc.push '\t')
      | 'u' =>
        match rest with
        | h1 :: h2 :: h3 :: h4 :: rest2 =>
          match hexVal h1, hexVal h2, hexVal h3, hexVal h4 with
          | some a, some b, some c, some d =>
            let n := ((a * 16 + b) * 16 + c) * 16 + d
            if n < 0xD800 ∨ n ≥ 0xE000 then
              parseJString fuel rest2 (acc.push (Char.ofNat n))
            else if n < 0xDC00 then
              match rest2 with
              | '\\' :: 'u' :: g1 :: g2 :: g3 :: g4 :: rest3 =>
                match hexVal g1, hexVal g2, hexVal g3, hexVal g4 with
                | some a2, some b2, some c2, some d2 =>
                  let m := ((a2 * 16 + b2) * 16 + c2) * 16 + d2
                  if 0xDC00 ≤ m ∧ m < 0xE000 then
                    parseJString fuel rest3
                      (acc.push (Char.ofNat (0x10000 + (n - 0xD800) * 0x400 + (m - 0xDC00))))
                  else none
                | _, _, _, _ => none
              | _ => none
            else none
          | _, _, _, _ => none
        | _ => none
      | _ => none
    | c :: rest =>
      if c.toNat < 0x20 then none else parseJString fuel rest (acc.push c)

mutual

/-- Parse one JSON value. -/
def parseValue (fuel : Nat) (cs : List Char) : Option (Jsv × List Char) :=
  match fuel with
  | 0 => none
  | fuel + 1 =>
    match skipWs cs with
    | [] => none
    | c :: rest =>
      if c = '{' then parseObjItems fuel rest [] true
      else if c = '[' then parseArrItems fuel rest [] true
      else if c = '"' then
        match parseJString (rest.length + 1) rest "" with
        | some (s, rest2) => some (.str s, rest2)
        | none => none
      else if c = 't' then
        match rest with
        | 'r' :: 'u' :: 'e' :: rest2 => some (.bool true, rest2)
        | _ => none
      else if c = 'f' then
        match rest with
        | 'a' :: 'l' :: 's' :: 'e' :: rest2 => some (.bool false, rest2)
        | _ => none
      else if c = 'n' then
        match rest with
        | 'u' :: 'l' :: 'l' :: rest2 => some (.null, rest2)
        | _ => none
      else
        match parseJNumber (c :: rest) with
        | some (q, rest2) => some (.num q, rest2)
        | none => none

/-- Parse the items of a JSON array, `first` marking the position right
after the opening bracket. -/
def parseArrItems (fuel : Nat) (cs : List Char) (acc : List Jsv) (first : Bool) :
    Option (Jsv × List Char) :=
  match fuel with
  | 0 => none
  | fuel + 1 =>
    match skipWs cs with
    | [] => none
    | c :: rest =>
      if c = ']' ∧ first then some (.arr [], rest)
      else
        let csv := if first then c :: rest else
          match c :: rest with
          | ',' :: r => r
          | r => r
        if ¬ first ∧ c = ']' then some (.arr acc.reverse, rest)
        else if ¬ first ∧ c ≠ ',' then none
        else
          match parseValue fuel csv with
          | some (v, rest2) => parseArrItems fuel rest2 (v :: acc) false
          | none => none

/-- Parse the members of a JSON object, `first` marking the position right
after the opening brace. -/
def parseObjItems (fuel : Nat) (cs : List Char) (acc : List (String × Jsv)) (first : Bool) :
    Option (Jsv × List Char) :=
  match fuel with
  | 0 => none
  | fuel + 1 =>
    match skipWs cs with
    | [] => none
    | c :: rest =>
      if c = '}' ∧ first then some (.obj [], rest)
      else if ¬ first ∧ c = '}' then some (.obj acc.reverse, rest)
      else
        let body := if first then c :: rest else
          match c :: rest with
          | ',' :: r => skipWs r
          | _ => []
        match body with
        | '"' :: rest2 =>
          match parseJString (rest2.length + 1) rest2 "" with
          | some (k, rest3) =>
            match skipWs rest3 with
            | ':' :: rest4 =>
              match parseValue fuel rest4 with
              | some (v, rest5) => parseObjItems fuel rest5 ((k, v) :: acc) false
              | none => none
            | _ => none
          | none => none
        | _ => none

end

/-- JavaScript `JSON.parse`: succeeds only when the whole input is one
JSON value surrounded by whitespace. -/
def jsonParse (s : String) : Option Jsv :=
  match parseValue (2 * s.length + 8) s.toList with
  | some (v, rest) => if skipWs rest = [] then some v else none
  | none => none

/-- Decimal rendering of a rational, exact when the denominator divides a
power of ten (the only case arising from pipeline arithmetic). -/
def ratToJsStr (q : ℚ) : String :=
  if q = 0 then "0"
  else
    let sign := if q < 0 then "-" else ""
    let a := q.num.natAbs
    let b := q.den
    if b = 1 then sign ++ toString a
    else
      match (List.range 64).find? (fun k => b ∣ 10 ^ k) with
      | some k =>
        let scaled := a * 10 ^ k / b
        let ip := scaled / 10 ^ k
        let fp := scaled % 10 ^ k
        let fs := toString fp
        sign ++ toString ip ++ "." ++ String.mk (List.replicate (k - fs.length) '0') ++ fs
      | none => sign ++ toString a ++ "/" ++ toString b

mutual

/-- JavaScript string conversion of a value. -/
def jsToStr : Jsv → String
  | .undefined => "undefined"
  | .null => "null"
  | .nan => "NaN"
  | .bool b => if b then "true" else "false"
  | .num q => ratToJsStr q
  | .str s => s
  | .arr xs => jsArrJoin xs ","
  | .obj _ => "[object Object]"

/-- JavaScript `Array.prototype.join`: `null` and `undefined` elements
render as the empty string. -/
def jsArrJoin : List Jsv → String → String
  | [], _ => ""
  | x :: xs, sep =>
    let hd := match x with
      | .undefined => ""
      | .null => ""
      | v => jsToStr v
    match xs with
    | [] => hd
    | _ :: _ => hd ++ sep ++ jsArrJoin xs sep

end

/-- Finish parsing a JavaScript numeric string after its mantissa:
an optional exponent, then end of input. -/
def finishNumber (neg : Bool) (mant : ℚ) (cs : List Char) : Option ℚ :=
  match cs with
  | [] => some (if neg then -mant else mant)
  | c :: rest =>
    if c = 'e' ∨ c = 'E' then
      let (eneg, r1) := match rest with
        | '-' :: r => (true, r)
        | '+' :: r => (false, r)
        | _ => (false, rest)
      match takeDigits r1 with
      | ([], _) => none
      | (es, r2) =>
        if r2 = [] then
          let e := digitsToNat es
          let v := if eneg then qMul mant (mkRat 1 (10 ^ e)) else qMul mant (mkRat (10 ^ e) 1)
          some (if neg then -v else v)
        else none
    else none

/-- JavaScript `Number(string)`: trimmed empty input is `0`, otherwise a
decimal literal with optional sign, fraction and exponent; anything else
is `NaN` (`none`). -/
def strToNumber (s : String) : Option ℚ :=
  let cs := ((s.toList.dropWhile Char.isWhitespace).reverse.dropWhile Char.isWhitespace).reverse
  match cs with
  | [] => some 0
  | _ =>
    let (neg, cs1) := match cs with
      | '-' :: r => (true, r)
      | '+' :: r => (false, r)
      | _ => (false, cs)
    let (ip, cs2) := takeDigits cs1
    match cs2 with
    | '.' :: r =>
      let (fp, cs3) := takeDigits r
      if ip = [] ∧ fp = [] then none
      else finishNumber neg (qAdd (digitsToNat ip : ℚ) (mkRat (digitsToNat fp) (10 ^ fp.length))) cs3
    | _ =>
      if ip = [] then none
      else finishNumber neg (digitsToNat ip : ℚ) cs2

/-- JavaScript `ToPrimitive` as it behaves for plain arrays and objects
(both stringify). -/
def jsToPrimitive : Jsv → Jsv
  | .arr xs => .str (jsArrJoin xs ",")
  | .obj _ => .str "[object Object]"
  | v => v

/-- JavaScript `ToNumber`; `none` stands for `NaN`. -/
def jsToNumber : Jsv → Option ℚ
  | .undefined => none
  | .null => some 0
  | .nan => none
  | .bool b => some (if b then 1 else 0)
  | .num q => some q
  | .str s => strToNumber s
  | .arr xs => strToNumber (jsArrJoin xs ",")
  | .obj _ => none

/-- JavaScript `+`: string concatenation when either primitive operand is a
string, numeric addition otherwise. -/
def jsAdd (a b : Jsv) : Jsv :=
  match jsToPrimitive a, jsToPrimitive b with
  | .str s, p => .str (s ++ jsToStr p)
  | p, .str s => .str (jsToStr p ++ s)
  | p, p2 =>
    match jsToNumber p, jsToNumber p2 with
    | some x, some y => .num (qAdd x y)
    | _, _ => .nan

/-- JavaScript `Math.min(v, q)` with a numeric literal second argument. -/
def jsMathMin (v : Jsv) (q : ℚ) : Jsv :=
  match jsToNumber v with
  | none => .nan
  | some x => .num (min x q)

/-- JavaScript `v < q` with a numeric literal right operand (`NaN`
comparisons are false). -/
def jsLtNum (v : Jsv) (q : ℚ) : Bool :=
  match jsToNumber v with
  | some x => decide (x < q)
  | none => false

/-- JavaScript `v > q` with a numeric literal right operand. -/
def jsGtNum (v : Jsv) (q : ℚ) : Bool :=
  match jsToNumber v with
  | some x => decide (q < x)
  | none => false

/-- JavaScript `v >= q` with a numeric literal right operand. -/
def jsGeNum (v : Jsv) (q : ℚ) : Bool :=
  match jsToNumber v with
  | some x => decide (q ≤ x)
  | none => false

/-- JavaScript strict equality `v === s` against a string literal. -/
def jsEqStrB (v : Jsv) (s : String) : Bool :=
  match v with
  | .str t => t = s
  | _ => false

/-- JavaScript `.length` as a value: defined for strings (UTF-16 units)
and arrays, `undefined` elsewhere. -/
def jsLength : Jsv → Jsv
  | .str s => .num (utf16Len s)
  | .arr xs => .num xs.length
  | _ => .undefined

/-- Prefix test on character lists. -/
def listIsPre : List Char → List Char → Bool
  | [], _ => true
  | _ :: _, [] => false
  | p :: ps, c :: cs => p = c && listIsPre ps cs

/-- Substring occurrence test on character lists. -/
def listHasSub (ps : List Char) : List Char → Bool
  | [] => listIsPre ps []
  | c :: rest => listIsPre ps (c :: rest) || listHasSub ps rest

/-- JavaScript `String.prototype.includes`. -/
def jsIncludes (s pat : String) : Bool :=
  listHasSub pat.toList s.toList

/-- JavaScript `String.prototype.startsWith`. -/
def jsStartsWith (s pre : String) : Bool :=
  listIsPre pre.toList s.toList

/-- JavaScript `v?.join(sep)`: short-circuits on `null`/`undefined`, joins
arrays, and throws a `TypeError` on any other receiver. -/
def jsJoinQ (v : Jsv) (sep : String) : Except Unit Jsv :=
  match v with
  | .undefined => .ok .undefined
  | .null => .ok .undefined
  | .arr xs => .ok (.str (jsArrJoin xs sep))
  | _ => .error ()

/-- Substring matched by the regex `\x7b[\s\S]*\x7d`: from the first
opening brace to the last closing brace after it. -/
def braceSpan (s : String) : Option String :=
  let cs := s.toList
  match cs.findIdx? (fun c => c = '{') with
  | none => none
  | some i =>
    match cs.reverse.findIdx? (fun c => c = '}') with
    | none => none
    | some rj =>
      let j := cs.length - 1 - rj
      if i < j then some (String.mk ((cs.drop i).take (j - i + 1))) else none

/-- `parseJSON` of both workflow classes: decode the brace-delimited span
of the model response, returning the empty object on any failure (the
method catches its own exceptions). -/
def parseJSON (s : String) : Jsv :=
  match braceSpan s with
  | none => .obj []
  | some sub =>
    match jsonParse sub with
    | some v => v
    | none => .obj []

/-- Task priorities (`TaskPriority` string enum of `common/types`). -/
inductive TaskPriority where
  | low
  | medium
  | high
  | urgent
deriving Repr, DecidableEq

/-- `mapPriority` of both workflow classes: `priority?.toLowerCase()`
switched over the known names; `null`/`undefined` short-circuit into the
default branch, and a non-string receiver throws a `TypeError`. -/
def mapPriority (priority : Jsv) : Except Unit TaskPriority :=
  match priority with
  | .undefined => .ok .medium
  | .null => .ok .medium
  | .str s =>
    .ok (if s.toLower = "urgent" then .urgent
      else if s.toLower = "high" then .high
      else if s.toLower = "low" then .low
      else .medium)
  | _ => .error ()

/-- `input.length > 50 ? input.slice(0, 50) + "..." : input`, the title
truncation both workflows use. -/
def jsTruncate50 (input : String) : String :=
  if utf16Len input > 50 then utf16Take 50 input ++ "..." else input

/-- Completion-client behaviour for one pipeline run: the outcome of each
of the two `ollama.generate` calls, either a raw response text or a thrown
error. -/
structure Env where
  extractResp : Except Unit String
  analyzeResp : Except Unit String

namespace TaskCreation

/-- Extraction prompt (`extractDetailedInformation`); its text never
influences the embedded semantics because the environment fixes the
response, but it is kept for completeness. -/
def extractionPrompt (input : String) : String :=
  "다음 자연어 입력을 분석하여 상세한 작업 정보를 추출해주세요:\n\n입력: \x22" ++ input ++
  "\x22\n\n다음 요소들을 추출하고 JSON으로 응답하세요:\n- 작업 제목 (명확하고 실행 가능한)\n- 상세 설명\n- 마감일 (언급되었다면)\n- 예상 소요 시간 (분 단위)\n- 관련 태그\n- 언급된 사람, 장소, 조직\n- 작업의 긴급성 지표\n- 복잡도 수준 (1-5)\n\n응답 형식:\n\x7b\n  \x22title\x22: \x22구체적인 작업 제목\x22,\n  \x22description\x22: \x22상세 설명\x22,\n  \x22dueDate\x22: \x22YYYY-MM-DD\x22,\n  \x22estimatedDuration\x22: 60,\n  \x22tags\x22: [\x22태그1\x22, \x22태그2\x22],\n  \x22entities\x22: \x7b\n    \x22people\x22: [\x22이름들\x22],\n    \x22places\x22: [\x22장소들\x22],\n    \x22organizations\x22: [\x22조직들\x22]\n  \x7d,\n  \x22urgencyIndicators\x22: [\x22긴급성을 나타내는 키워드들\x22],\n  \x22complexity\x22: 3,\n  \x22dependencies\x22: [\x22필요한 전제 조건들\x22]\n\x7d\n\nJSON만 응답하세요:"

/-- `calculateExtractionConfidence`: a 0.5 baseline with bonuses for a
usable title, description, due date and tags, capped at 1. -/
def calculateExtractionConfidence (extractedInfo : Jsv) (originalInput : String) : ℚ :=
  let c1 : ℚ := mkRat 1 2
  let c2 := qAdd c1 (if truthy (getField extractedInfo "title") &&
      jsGtNum (jsLength (getField extractedInfo "title")) 5 then mkRat 1 5 else 0)
  let c3 := qAdd c2 (if truthy (getField extractedInfo "description") &&
      jsGtNum (jsLength (getField extractedInfo "description")) 10 then mkRat 1 10 else 0)
  let c4 := qAdd c3 (if truthy (getField extractedInfo "dueDate") then mkRat 1 10 else 0)
  let c5 := qAdd c4 (if truthy (getField extractedInfo "tags") &&
      jsGtNum (jsLength (getField extractedInfo "tags")) 0 then mkRat 1 10 else 0)
  min c5 1

/-- Object spread update `\x7b...result, k: x\x7d`: appends the binding, so a
later lookup of `k` sees `x`; spreading a primitive contributes nothing. -/
def objSetField (v : Jsv) (k : String) (x : Jsv) : Jsv :=
  match v with
  | .obj kvs => .obj (kvs ++ [(k, x)])
  | _ => .obj [(k, x)]

/-- `fallbackExtraction`: the heuristic record used when the extraction
model call throws. -/
def fallbackExtraction (input : String) : Jsv :=
  .obj [
    ("title", .str (jsTruncate50 input)),
    ("description", if utf16Len input > 100 then .str input else .undefined),
    ("tags", .arr []),
    ("entities", .obj [("people", .arr []), ("places", .arr []), ("organizations", .arr [])]),
    ("urgencyIndicators", .arr []),
    ("complexity", .num 2),
    ("estimatedDuration", .num 30),
    ("confidence", .num (mkRat 3 10))]

/-- `extractDetailedInformation`: on a successful model call the response
is JSON-decoded (empty object on parse failure) and the heuristic
confidence is spread in; a thrown call falls back to
`fallbackExtraction`. Never throws. -/
def extractDetailedInformation (env : Env) (input : String) : Jsv :=
  match env.extractResp with
  | .ok resp =>
    let result := parseJSON resp
    objSetField result "confidence" (.num (calculateExtractionConfidence result input))
  | .error _ => fallbackExtraction input

/-- Priority/complexity prompt of `analyzeTaskComplexity`. Its construction
happens before the stage's `try` block and throws a `TypeError` when
`extractedInfo.urgencyIndicators` is a truthy non-array. -/
def complexityPrompt (extractedInfo : Jsv) : Except Unit String := do
  let uj ← jsJoinQ (getField extractedInfo "urgencyIndicators") ", "
  .ok ("다음 작업의 우선순위와 복잡도를 분석해주세요:\n\n작업: " ++
    jsToStr (getField extractedInfo "title") ++
    "\n설명: " ++ jsToStr (jsOr (getField extractedInfo "description") (.str "없음")) ++
    "\n마감일: " ++ jsToStr (jsOr (getField extractedInfo "dueDate") (.str "없음")) ++
    "\n복잡도: " ++ jsToStr (jsOr (getField extractedInfo "complexity") (.str "미정")) ++
    "\n긴급성 지표: " ++ jsToStr (jsOr uj (.str "없음")) ++
    "\n\n우선순위 결정 기준:\n1. 시간 민감도 (마감일, 긴급성 키워드)\n2. 비즈니스 영향도 (중요성, 의존성)\n3. 리소스 요구사항 (복잡도, 예상 시간)\n\nJSON 형식으로 응답:\n\x7b\n  \x22priority\x22: \x22urgent|high|medium|low\x22,\n  \x22reasoning\x22: \x22우선순위 결정 근거\x22,\n  \x22riskFactors\x22: [\x22위험 요소들\x22],\n  \x22recommendedTimeSlot\x22: \x22최적 수행 시간대\x22,\n  \x22confidence\x22: 0.8\n\x7d\n\nJSON만 응답하세요:")

/-- `fallbackPriorityAnalysis`: keyword scan over title and description. -/
def fallbackPriorityAnalysis (info : Jsv) : Jsv :=
  let text := (jsToStr (jsAdd (jsAdd (getField info "title") (.str " "))
    (jsOr (getField info "description") (.str "")))).toLower
  let priority :=
    if jsIncludes text "urgent" || jsIncludes text "긴급" || jsIncludes text "asap" then "urgent"
    else if jsIncludes text "important" || jsIncludes text "중요" || jsIncludes text "critical" then "high"
    else if jsIncludes text "later" || jsIncludes text "나중에" || jsIncludes text "when possible" then "low"
    else "medium"
  .obj [("priority", .str priority), ("reasoning", .str "키워드 기반 분석"),
    ("riskFactors", .arr []), ("recommendedTimeSlot", .str "업무 시간"),
    ("confidence", .num (mkRat 1 2))]

/-- `analyzeTaskComplexity`: prompt construction may throw past the stage;
a thrown model call is caught and answered by the keyword fallback. -/
def analyzeTaskComplexity (env : Env) (extractedInfo : Jsv) : Except Unit Jsv := do
  let _prompt ← complexityPrompt extractedInfo
  match env.analyzeResp with
  | .ok resp => .ok (parseJSON resp)
  | .error _ => .ok (fallbackPriorityAnalysis extractedInfo)

end TaskCreation

/-- Entity lists of the basic-task metadata. -/
structure EntitySets where
  people : List Jsv
  places : List Jsv
  organizations : List Jsv
  dates : List Jsv
deriving Repr

/-- Metadata of the degraded `createBasicTask` result. -/
structure BasicMeta where
  extractedEntities : EntitySets
  confidence : ℚ
  fallback : Bool
deriving Repr

/-- Shape of `createBasicTask`. -/
structure BasicTask where
  title : String
  description : String
  priority : TaskPriority
  tags : List Jsv
  estimatedDuration : ℚ
  aiMetadata : BasicMeta
deriving Repr

/-- `aiMetadata` of the finalized task of `validateAndSuggest`. -/
structure FinalMeta where
  extractedEntities : Jsv
  suggestedPriority : Jsv
  priorityReasoning : Jsv
  complexity : Jsv
  riskFactors : Jsv
  confidence : Jsv
  urgencyIndicators : Jsv
deriving Repr

/-- Finalized task of `validateAndSuggest`. The `dueDate` field records the
argument of `new Date(...)` when the extracted due date is truthy. -/
structure FinalTask where
  title : Jsv
  description : Jsv
  dueDate : Option Jsv
  priority : TaskPriority
  tags : Jsv
  estimatedDuration : Jsv
  aiMetadata : FinalMeta
deriving Repr

/-- The dynamically-typed `task` member of a `TaskCreationResult`: the
finalized shape on success, the basic shape on pipeline fallback. -/
inductive TaskObj where
  | final : FinalTask → TaskObj
  | basic : BasicTask → TaskObj
deriving Repr

/-- Resource conflict pushed by `validateAndSuggest` for long tasks. -/
structure Conflict where
  type : String
  message : String
  suggestion : String
deriving Repr, DecidableEq

/-- `TaskCreationResult` of `task-creation.workflow.ts`; `conflicts` is
absent (`none`) in the orchestrator's degraded result. -/
structure TaskCreationResult where
  task : TaskObj
  needsConfirmation : Bool
  suggestions : List String
  conflicts : Option (List Conflict)
  confidence : Jsv
deriving Repr

namespace TaskCreation

/-- Aggregate confidence of `validateAndSuggest`:
`Math.min((extractedInfo.confidence || 0.5) + (analysis.confidence || 0.5), 1.0)`. -/
def overallConfidence (extractedInfo analysis : Jsv) : Jsv :=
  jsMathMin (jsAdd (jsOr (getField extractedInfo "confidence") (.num (mkRat 1 2)))
                   (jsOr (getField analysis "confidence") (.num (mkRat 1 2)))) 1

/-- `validateAndSuggest` (stage 3): threshold rules, suggestion pushes in
source order, the resource-conflict rule, and the final task object.
Throws only from `mapPriority` on a truthy non-string priority. -/
def validateAndSuggest (extractedInfo analysis : Jsv) : Except Unit TaskCreationResult :=
  let overall := overallConfidence extractedInfo analysis
  let lowConf := jsLtNum overall (mkRat 3 5)
  let urgentLow := jsEqStrB (getField analysis "priority") "urgent" && jsLtNum overall (mkRat 4 5)
  let highNoDue := jsEqStrB (getField analysis "priority") "high" &&
    ! truthy (getField extractedInfo "dueDate")
  let complexHigh := jsGeNum (getField extractedInfo "complexity") 4
  let longDuration := jsGtNum (getField extractedInfo "estimatedDuration") 240
  let suggestions :=
    (if lowConf then ["작업 내용을 더 구체적으로 작성해주세요."] else []) ++
    (if urgentLow then ["긴급한 작업입니다. 내용을 다시 확인해주세요."] else []) ++
    (if highNoDue then ["중요한 작업입니다. 마감일을 설정하는 것을 권장합니다."] else []) ++
    (if complexHigh then ["복잡한 작업입니다. 하위 작업으로 나누는 것을 고려해보세요."] else [])
  let conflicts : List Conflict :=
    if longDuration then
      [{ type := "resource"
         message := "장시간 소요 작업으로 다른 작업에 영향을 줄 수 있습니다."
         suggestion := "작업을 여러 단계로 나누는 것을 고려해보세요." }]
    else []
  let needsConf := lowConf || urgentLow || longDuration
  match mapPriority (getField analysis "priority") with
  | .error e => .error e
  | .ok p =>
    .ok { task := .final
            { title := getField extractedInfo "title"
              description := getField extractedInfo "description"
              dueDate := if truthy (getField extractedInfo "dueDate")
                then some (getField extractedInfo "dueDate") else none
              priority := p
              tags := jsOr (getField extractedInfo "tags") (.arr [])
              estimatedDuration := jsOr (getField extractedInfo "estimatedDuration") (.num 30)
              aiMetadata :=
                { extractedEntities := jsOr (getField extractedInfo "entities")
                    (.obj [("people", .arr []), ("places", .arr []),
                           ("organizations", .arr []), ("dates", .arr [])])
                  suggestedPriority := getField analysis "priority"
                  priorityReasoning := getField analysis "reasoning"
                  complexity := getField extractedInfo "complexity"
                  riskFactors := jsOr (getField analysis "riskFactors") (.arr [])
                  confidence := overall
                  urgencyIndicators := jsOr (getField extractedInfo "urgencyIndicators") (.arr []) } }
          needsConfirmation := needsConf
          suggestions := suggestions
          conflicts := some conflicts
          confidence := overall }

/-- `createBasicTask`: the degraded task built purely from the input. -/
def createBasicTask (input : String) : BasicTask :=
  { title := jsTruncate50 input
    description := input
    priority := .medium
    tags := []
    estimatedDuration := 30
    aiMetadata :=
      { extractedEntities := { people := [], places := [], organizations := [], dates := [] }
        confidence := mkRat 3 10
        fallback := true } }

/-- The hard-coded degraded result of `execute`'s catch block. -/
def fallbackResult (input : String) : TaskCreationResult :=
  { task := .basic (createBasicTask input)
    needsConfirmation := true
    suggestions := ["작업 생성 중 오류가 발생했습니다. 내용을 다시 확인해주세요."]
    conflicts := none
    confidence := .num (mkRat 3 10) }

/-- Body of `execute`'s `try` block: the three stages in order, errors
propagating. -/
def tryPipeline (env : Env) (input : String) : Except Unit TaskCreationResult := do
  let extractedInfo := extractDetailedInformation env input
  let analysis ← analyzeTaskComplexity env extractedInfo
  validateAndSuggest extractedInfo analysis

/-- `TaskCreationWorkflow.execute`: a total function — any exception
escaping a stage is converted into the degraded result. `userId` is only
logged by the source and does not enter the computation. -/
def execute (env : Env) (input userId : String) : TaskCreationResult :=
  match tryPipeline env input with
  | .ok r => r
  | .error _ => fallbackResult input

end TaskCreation

/-- Conflict record pushed by the advanced workflow's `detectConflicts`. -/
structure ConflictA where
  type : String
  message : String
  severity : String
deriving Repr, DecidableEq

/-- `aiMetadata` of the advanced workflow's finalized task. -/
structure FinalMetaA where
  extractedEntities : Jsv
  suggestedPriority : Jsv
  priorityReasoning : Jsv
  complexity : Jsv
  riskLevel : Jsv
  confidence : Jsv
  workflowVersion : String
  processedSteps : String
  urgencyIndicators : Jsv
deriving Repr

/-- Finalized task built by the advanced workflow's `validateAndFinalize`. -/
structure FinalTaskA where
  title : Jsv
  description : Jsv
  priority : TaskPriority
  estimatedDuration : Jsv
  tags : Jsv
  dueDate : Option Jsv
  aiMetadata : FinalMetaA
deriving Repr

/-- `TaskCreationState` of `AdvancedTaskCreationWorkflow`. -/
structure TCState where
  input : String
  userId : String
  extractedInfo : Jsv
  priorityAnalysis : Jsv
  validationResult : Jsv
  needsHumanReview : Bool
  conflicts : List ConflictA
  suggestions : List String
  finalTask : Option FinalTaskA
  confidence : Jsv
  currentStep : String
deriving Repr

namespace Advanced

/-- Initial state of `AdvancedTaskCreationWorkflow.execute`. -/
def initialState (input userId : String) : TCState :=
  { input := input
    userId := userId
    extractedInfo := .undefined
    priorityAnalysis := .undefined
    validationResult := .undefined
    needsHumanReview := false
    conflicts := []
    suggestions := []
    finalTask := none
    confidence := .num 0
    currentStep := "starting" }

/-- `extractInformation` (advanced, step 1): JSON-decode on success with
the model-reported confidence defaulted through `|| 0.5`, a fixed
low-confidence record on a thrown call. -/
def extractInformation (env : Env) (state : TCState) : TCState :=
  match env.extractResp with
  | .ok resp =>
    let extractedInfo := parseJSON resp
    { state with
      extractedInfo := extractedInfo
      confidence := jsOr (getField extractedInfo "confidence") (.num (mkRat 1 2))
      currentStep := "information_extracted" }
  | .error _ =>
    { state with
      extractedInfo := .obj [("title", .str state.input), ("confidence", .num (mkRat 1 5)),
        ("complexity", .num 2), ("estimatedDuration", .num 30)]
      confidence := .num (mkRat 1 5)
      currentStep := "extraction_failed" }

/-- Prompt of the advanced `analyzePriority`; built before the stage's
`try`, throwing when `urgencyKeywords` is a truthy non-array. -/
def priorityPrompt (info : Jsv) : Except Unit String := do
  let uk ← jsJoinQ (getField info "urgencyKeywords") ", "
  .ok ("작업 우선순위를 분석하세요:\n\n작업: " ++ jsToStr (getField info "title") ++
    "\n복잡도: " ++ jsToStr (getField info "complexity") ++
    "\n긴급성 키워드: " ++ jsToStr uk ++
    "\n예상 소요시간: " ++ jsToStr (getField info "estimatedDuration") ++
    "분\n\nJSON 응답:\n\x7b\n  \x22priority\x22: \x22urgent|high|medium|low\x22, \n  \x22reasoning\x22: \x22근거\x22,\n  \x22riskLevel\x22: \x22high|medium|low\x22,\n  \x22confidence\x22: 0.0-1.0\n\x7d")

/-- `analyzePriority` (advanced, step 2): on success the stage confidence
is `Math.min(state.confidence + (priorityAnalysis.confidence || 0.3), 1.0)`;
a thrown call keeps the previous confidence and installs a fixed medium
assessment. -/
def analyzePriority (env : Env) (state : TCState) : Except Unit TCState := do
  let _prompt ← priorityPrompt state.extractedInfo
  match env.analyzeResp with
  | .ok resp =>
    let priorityAnalysis := parseJSON resp
    .ok { state with
      priorityAnalysis := priorityAnalysis
      confidence := jsMathMin
        (jsAdd state.confidence (jsOr (getField priorityAnalysis "confidence") (.num (mkRat 3 10)))) 1
      currentStep := "priority_analyzed" }
  | .error _ =>
    .ok { state with
      priorityAnalysis := .obj [("priority", .str "medium"), ("confidence", .num (mkRat 3 10)),
        ("riskLevel", .str "medium")]
      currentStep := "priority_analysis_failed" }

/-- `detectConflicts` (advanced, step 3): purely rule-based; replaces the
state's conflicts with the freshly detected ones and appends the paired
suggestions in check order. -/
def detectConflicts (state : TCState) : TCState :=
  let complexHigh := jsGeNum (getField state.extractedInfo "complexity") 4
  let longDuration := jsGtNum (getField state.extractedInfo "estimatedDuration") 240
  let urgentComplex := jsEqStrB (getField state.priorityAnalysis "priority") "urgent" &&
    jsGeNum (getField state.extractedInfo "complexity") 4
  let conflicts : List ConflictA :=
    (if complexHigh then
      [{ type := "complexity", message := "매우 복잡한 작업입니다", severity := "high" }] else []) ++
    (if longDuration then
      [{ type := "duration", message := "장시간 소요 작업입니다", severity := "medium" }] else []) ++
    (if urgentComplex then
      [{ type := "priority_complexity_mismatch", message := "긴급하지만 복잡한 작업입니다",
         severity := "high" }] else [])
  let suggestions := state.suggestions ++
    (if complexHigh then ["작업을 여러 단계로 나누는 것을 권장합니다"] else []) ++
    (if longDuration then ["다른 작업들과의 스케줄 조정이 필요할 수 있습니다"] else []) ++
    (if urgentComplex then ["리소스 확보 또는 범위 축소를 고려하세요"] else [])
  { state with
    conflicts := conflicts
    suggestions := suggestions
    currentStep := "conflicts_detected" }

/-- `validateAndFinalize` (advanced, step 4): review thresholds, the
high-severity forcing rule, and the final task object. Throws only from
`mapPriority` on a truthy non-string priority. -/
def validateAndFinalize (state : TCState) : Except Unit TCState :=
  let lowConf := jsLtNum state.confidence (mkRat 3 5)
  let urgentLow := jsEqStrB (getField state.priorityAnalysis "priority") "urgent" &&
    jsLtNum state.confidence (mkRat 4 5)
  let highNoDue := jsEqStrB (getField state.priorityAnalysis "priority") "high" &&
    ! truthy (getField state.extractedInfo "dueDate")
  let highRisk := state.conflicts.any (fun c => c.severity = "high")
  let needsHumanReview := lowConf || urgentLow || highRisk
  let suggestions := state.suggestions ++
    (if lowConf then ["작업 내용을 더 구체적으로 작성해주세요."] else []) ++
    (if urgentLow then ["긴급한 작업입니다. 내용을 다시 확인해주세요."] else []) ++
    (if highNoDue then ["중요한 작업입니다. 마감일을 설정하는 것을 권장합니다."] else []) ++
    (if highRisk then ["고위험 요소가 감지되었습니다. 검토가 필요합니다."] else [])
  match mapPriority (jsOr (getField state.priorityAnalysis "priority") (.str "medium")) with
  | .error e => .error e
  | .ok p =>
    .ok { state with
      finalTask := some
        { title := jsOr (getField state.extractedInfo "title") (.str state.input)
          description := getField state.extractedInfo "description"
          priority := p
          estimatedDuration := jsOr (getField state.extractedInfo "estimatedDuration") (.num 30)
          tags := jsOr (getField state.extractedInfo "tags") (.arr [])
          dueDate := if truthy (getField state.extractedInfo "dueDate")
            then some (getField state.extractedInfo "dueDate") else none
          aiMetadata :=
            { extractedEntities := jsOr (getField state.extractedInfo "entities") (.obj [])
              suggestedPriority := getField state.priorityAnalysis "priority"
              priorityReasoning := getField state.priorityAnalysis "reasoning"
              complexity := getField state.extractedInfo "complexity"
              riskLevel := getField state.priorityAnalysis "riskLevel"
              confidence := state.confidence
              workflowVersion := "advanced-v2"
              processedSteps := state.currentStep
              urgencyIndicators := jsOr (getField state.extractedInfo "urgencyKeywords") (.arr []) } }
      needsHumanReview := needsHumanReview
      suggestions := suggestions
      currentStep := "finalized" }

end Advanced

/-- Whitespace class of the JavaScript regex `\s` (the code units the
pipeline inputs can contain). -/
def isJsWs (c : Char) : Bool :=
  c = ' ' || c = '\t' || c = '\n' || c = '\r' || c.toNat = 0x0B || c.toNat = 0x0C ||
  c.toNat = 0xA0 || c.toNat = 0x1680 || (0x2000 ≤ c.toNat && c.toNat ≤ 0x200A) ||
  c.toNat = 0x2028 || c.toNat = 0x2029 || c.toNat = 0x202F || c.toNat = 0x205F ||
  c.toNat = 0x3000 || c.toNat = 0xFEFF

mutual

/-- Worker for `jsSplitWs`: whitespace ends the current segment. -/
def splitWsGo : List Char → String → List String
  | [], cur => [cur]
  | c :: rest, cur =>
    if isJsWs c then cur :: splitWsSkip rest else splitWsGo rest (cur.push c)

/-- Worker for `jsSplitWs`: inside a whitespace run, before the next
segment. -/
def splitWsSkip : List Char → List String
  | [] => [""]
  | c :: rest =>
    if isJsWs c then splitWsSkip rest else splitWsGo rest (String.mk [c])

end

/-- JavaScript `input.split(/\s+/)`: segments between maximal whitespace
runs, keeping leading and trailing empty segments as JavaScript does. -/
def jsSplitWs (s : String) : List String :=
  splitWsGo s.toList ""

/-- Try to match `\d\x7b4\x7d-\d\x7b2\x7d-\d\x7b2\x7d` at the start of the
input. -/
def matchYmdAt (cs : List Char) : Option String :=
  match cs with
  | a :: b :: c :: d :: '-' :: e :: f :: '-' :: g :: h :: _ =>
    if [a, b, c, d, e, f, g, h].all Char.isDigit then
      some (String.mk [a, b, c, d, '-', e, f, '-', g, h])
    else none
  | _ => none

/-- Exactly `n` decimal digits from the front. -/
def takeExactDigits (cs : List Char) (n : Nat) : Option (List Char × List Char) :=
  let ds := cs.take n
  if ds.length = n ∧ ds.all Char.isDigit then some (ds, cs.drop n) else none

/-- Try to match `\d\x7b1,2\x7d/\d\x7b1,2\x7d/\d\x7b4\x7d` at the start of
the input, with the regex's greedy backtracking order. -/
def matchSlashAt (cs : List Char) : Option String :=
  let attempt := fun (n1 n2 : Nat) =>
    match takeExactDigits cs n1 with
    | some (d1, r1) =>
      match r1 with
      | '/' :: r2 =>
        match takeExactDigits r2 n2 with
        | some (d2, r3) =>
          match r3 with
          | '/' :: r4 =>
            match takeExactDigits r4 4 with
            | some (d3, _) => some (String.mk (d1 ++ ['/'] ++ d2 ++ ['/'] ++ d3))
            | none => none
          | _ => none
        | none => none
      | _ => none
    | none => none
  ((attempt 2 2).orElse (fun _ => (attempt 2 1).orElse (fun _ =>
    (attempt 1 2).orElse (fun _ => attempt 1 1))))

/-- Try the given lowercase alternatives at the start of the input,
case-insensitively, returning the original-case matched substring. -/
def matchAltAt (cs : List Char) (alts : List String) : Option String :=
  match alts with
  | [] => none
  | alt :: rest =>
    let n := alt.length
    if ((cs.take n).map Char.toLower) = alt.toList then some (String.mk (cs.take n))
    else matchAltAt cs rest

/-- Leftmost match of a positional matcher, as a regex scan finds it. -/
def scanFirst (f : List Char → Option String) : List Char → Option String
  | [] => none
  | c :: rest =>
    match f (c :: rest) with
    | some m => some m
    | none => scanFirst f rest

/-- A JavaScript `Date`: either constructed from a millisecond timestamp
or from a date string (whose calendar interpretation the pipeline never
inspects). -/
inductive JsDate where
  | fromMs : ℚ → JsDate
  | fromString : String → JsDate
deriving Repr, DecidableEq

/-- String entity lists of `ParsedTaskData`. -/
structure StrEntities where
  people : List String
  places : List String
  organizations : List String
  dates : List String
deriving Repr, DecidableEq

/-- `ParsedTaskData` as `AiService.fallbackParsing` populates it. -/
structure ParsedTaskData where
  title : String
  priority : TaskPriority
  tags : List String
  dueDate : Option JsDate
  extractedEntities : StrEntities
  confidence : ℚ
deriving Repr, DecidableEq

namespace AiService

/-- `AiService.fallbackParsing`: keyword-based priority, hash-word tags,
simple date-pattern search. `new Date()` is modelled by the explicit
current-time parameter `nowMs` (milliseconds). -/
def fallbackParsing (nowMs : ℚ) (input : String) : ParsedTaskData :=
  let title := jsTruncate50 input
  let urgentKeywords := ["urgent", "asap", "emergency", "critical", "긴급", "즉시"]
  let highKeywords := ["important", "must", "need to", "required", "중요", "해야", "필수"]
  let lowKeywords := ["when possible", "eventually", "sometime", "나중에", "시간될때"]
  let lowerInput := input.toLower
  let priority :=
    if urgentKeywords.any (fun k => jsIncludes lowerInput k) then TaskPriority.urgent
    else if highKeywords.any (fun k => jsIncludes lowerInput k) then TaskPriority.high
    else if lowKeywords.any (fun k => jsIncludes lowerInput k) then TaskPriority.low
    else TaskPriority.medium
  let words := jsSplitWs input
  let tags := (words.filter (fun w => jsStartsWith w "#")).map (fun t => t.drop 1)
  let cs := input.toList
  let firstDateMatch :=
    (scanFirst matchYmdAt cs).orElse (fun _ =>
      (scanFirst matchSlashAt cs).orElse (fun _ =>
        (scanFirst (fun l => matchAltAt l ["내일", "tomorrow"]) cs).orElse (fun _ =>
          scanFirst (fun l => matchAltAt l ["다음주", "next week"]) cs)))
  let dueDate : Option JsDate :=
    match firstDateMatch with
    | none => none
    | some m =>
      let dateStr := m.toLower
      if jsIncludes dateStr "내일" || jsIncludes dateStr "tomorrow" then
        some (.fromMs (qAdd nowMs ((24 * 60 * 60 * 1000 : ℕ) : ℚ)))
      else if jsIncludes dateStr "다음주" || jsIncludes dateStr "next week" then
        some (.fromMs (qAdd nowMs ((7 * 24 * 60 * 60 * 1000 : ℕ) : ℚ)))
      else if dateStr.toList.any Char.isDigit then some (.fromString dateStr)
      else none
  { title := title
    priority := priority
    tags := tags
    dueDate := dueDate
    extractedEntities := { people := [], places := [], organizations := [], dates := [] }
    confidence := mkRat 7 10 }

end AiService

/-- Value of a successful stage result, with an explicit default for the
error case (used to name concrete pipeline outcomes in closed statements). -/
def getOkD (d : α) : Except ε α → α
  | .ok a => a
  | .error _ => d

/-- The `title` member of either task shape, as the JavaScript value a
caller reads from the result. -/
def taskTitle : TaskObj → Jsv
  | .final t => t.title
  | .basic b => .str b.title

/-- Aggregate-confidence formula as the claim states it: a missing
stage confidence is replaced by 0.5, then the two are added and capped at
1 (kept separate from the source-derived `TaskCreation.overallConfidence`
for comparison). -/
def specAggregateConfidence (extractionConfidence assessmentConfidence : Option ℚ) : ℚ :=
  min (extractionConfidence.getD (1/2) + assessmentConfidence.getD (1/2)) 1

theorem qAdd_eq (a b : ℚ) : qAdd a b = a + b := by
  unfold qAdd
  rw [Rat.mkRat_eq_div]
  push_cast
  conv_rhs => rw [← Rat.num_div_den a, ← Rat.num_div_den b]
  rw [div_add_div _ _ (by exact_mod_cast a.den_nz) (by exact_mod_cast b.den_nz)]
  ring_nf

theorem qMul_eq (a b : ℚ) : qMul a b = a * b := by
  unfold qMul
  rw [Rat.mkRat_eq_div]
  push_cast
  conv_rhs => rw [← Rat.num_div_den a, ← Rat.num_div_den b]
  rw [div_mul_div_comm]

theorem jsAdd_num_num (x y : ℚ) : jsAdd (.num x) (.num y) = .num (qAdd x y) := rfl

theorem jsMathMin_num (x q : ℚ) : jsMathMin (.num x) q = .num (min x q) := rfl

theorem jsLtNum_num (x q : ℚ) : jsLtNum (.num x) q = decide (x < q) := rfl

theorem vas_ok_confidence (e a : Jsv) (r : TaskCreationResult)
    (h : TaskCreation.validateAndSuggest e a = .ok r) :
    r.confidence = TaskCreation.overallConfidence e a := by
  cases hmp : mapPriority (getField a "priority") with
  | error x => simp [TaskCreation.validateAndSuggest, hmp] at h
  | ok p =>
    simp [TaskCreation.validateAndSuggest, hmp] at h
    subst h
    rfl

theorem vas_ok_needsConf (e a : Jsv) (r : TaskCreationResult)
    (h : TaskCreation.validateAndSuggest e a = .ok r) :
    r.needsConfirmation =
      (jsLtNum (TaskCreation.overallConfidence e a) (mkRat 3 5) ||
       (jsEqStrB (getField a "priority") "urgent" &&
        jsLtNum (TaskCreation.overallConfidence e a) (mkRat 4 5)) ||
       jsGtNum (getField e "estimatedDuration") 240) := by
  cases hmp : mapPriority (getField a "priority") with
  | error x => simp [TaskCreation.validateAndSuggest, hmp] at h
  | ok p =>
    simp [TaskCreation.validateAndSuggest, hmp] at h
    subst h
    rfl

theorem vas_ok_suggestions (e a : Jsv) (r : TaskCreationResult)
    (h : TaskCreation.validateAndSuggest e a = .ok r) :
    r.suggestions =
      (if jsLtNum (TaskCreation.overallConfidence e a) (mkRat 3 5)
        then ["작업 내용을 더 구체적으로 작성해주세요."] else []) ++
      (if jsEqStrB (getField a "priority") "urgent" &&
          jsLtNum (TaskCreation.overallConfidence e a) (mkRat 4 5)
        then ["긴급한 작업입니다. 내용을 다시 확인해주세요."] else []) ++
      (if jsEqStrB (getField a "priority") "high" && ! truthy (getField e "dueDate")
        then ["중요한 작업입니다. 마감일을 설정하는 것을 권장합니다."] else []) ++
      (if jsGeNum (getField e "complexity") 4
        then ["복잡한 작업입니다. 하위 작업으로 나누는 것을 고려해보세요."] else []) := by
  cases hmp : mapPriority (getField a "priority") with
  | error x => simp [TaskCreation.validateAndSuggest, hmp] at h
  | ok p =>
    simp [TaskCreation.validateAndSuggest, hmp] at h
    subst h
    simp [List.append_assoc]

theorem vas_ok_title (e a : Jsv) (r : TaskCreationResult)
    (h : TaskCreation.validateAndSuggest e a = .ok r) :
    ∃ t : FinalTask, r.task = .final t ∧ t.title = getField e "title" := by
  cases hmp : mapPriority (getField a "priority") with
  | error x => simp [TaskCreation.validateAndSuggest, hmp] at h
  | ok p =>
    simp [TaskCreation.validateAndSuggest, hmp] at h
    subst h
    exact ⟨_, rfl, rfl⟩

theorem vaf_ok_inv (s s2 : TCState) (h : Advanced.validateAndFinalize s = .ok s2) :
    s2.confidence = s.confidence ∧ s2.conflicts = s.conflicts ∧
    s2.needsHumanReview =
      (jsLtNum s.confidence (mkRat 3 5) ||
       (jsEqStrB (getField s.priorityAnalysis "priority") "urgent" &&
        jsLtNum s.confidence (mkRat 4 5)) ||
       s.conflicts.any (fun c => c.severity = "high")) ∧
    s2.suggestions = s.suggestions ++
      (if jsLtNum s.confidence (mkRat 3 5)
        then ["작업 내용을 더 구체적으로 작성해주세요."] else []) ++
      (if jsEqStrB (getField s.priorityAnalysis "priority") "urgent" &&
          jsLtNum s.confidence (mkRat 4 5)
        then ["긴급한 작업입니다. 내용을 다시 확인해주세요."] else []) ++
      (if jsEqStrB (getField s.priorityAnalysis "priority") "high" &&
          ! truthy (getField s.extractedInfo "dueDate")
        then ["중요한 작업입니다. 마감일을 설정하는 것을 권장합니다."] else []) ++
      (if s.conflicts.any (fun c => c.severity = "high")
        then ["고위험 요소가 감지되었습니다. 검토가 필요합니다."] else []) := by
  cases hmp : mapPriority (jsOr (getField s.priorityAnalysis "priority") (.str "medium")) with
  | error x => simp [Advanced.validateAndFinalize, hmp] at h
  | ok p =>
    simp [Advanced.validateAndFinalize, hmp] at h
    subst h
    refine ⟨rfl, rfl, rfl, ?_⟩
    simp [List.append_assoc]

/-- C1: for every input and userId the pipeline entry point
`TaskCreationWorkflow.execute` returns a `TaskCreationResult` (it is a
total function of the embedded environment), and whenever an exception
escapes a stage (the `try` body fails) the returned result is the
degraded one: title is the input truncated to 50 UTF-16 units with an
ellipsis marker (the full input when it fits), priority medium, empty
tags and entities, `needsConfirmation = true`, confidence 0.3, and an
error-acknowledgement suggestion. -/
theorem execute_never_throws_and_degrades (env : Env) (input userId : String)
    (h : TaskCreation.tryPipeline env input = .error ()) :
    TaskCreation.execute env input userId = TaskCreation.fallbackResult input ∧
    (TaskCreation.execute env input userId).task =
      .basic (TaskCreation.createBasicTask input) ∧
    (TaskCreation.createBasicTask input).title = jsTruncate50 input ∧
    (utf16Len input > 50 →
      (TaskCreation.createBasicTask input).title = utf16Take 50 input ++ "...") ∧
    (utf16Len input ≤ 50 → (TaskCreation.createBasicTask input).title = input) ∧
    (TaskCreation.createBasicTask input).priority = .medium ∧
    (TaskCreation.createBasicTask input).tags = [] ∧
    (TaskCreation.createBasicTask input).aiMetadata.extractedEntities =
      { people := [], places := [], organizations := [], dates := [] } ∧
    (TaskCreation.execute env input userId).needsConfirmation = true ∧
    (TaskCreation.execute env input userId).confidence = .num (mkRat 3 10) ∧
    "작업 생성 중 오류가 발생했습니다. 내용을 다시 확인해주세요." ∈
      (TaskCreation.execute env input userId).suggestions := by
  have he : TaskCreation.execute env input userId = TaskCreation.fallbackResult input := by
    unfold TaskCreation.execute
    rw [h]
  refine ⟨he, ?_, rfl, ?_, ?_, rfl, rfl, rfl, ?_, ?_, ?_⟩
  · rw [he]; rfl
  · intro hgt
    simp [TaskCreation.createBasicTask, jsTruncate50, hgt]
  · intro hle
    simp [TaskCreation.createBasicTask, jsTruncate50, Nat.not_lt.mpr hle]
  · rw [he]; rfl
  · rw [he]; rfl
  · rw [he]
    simp [TaskCreation.fallbackResult]

/-- Witness for C1: with a model response whose `urgencyIndicators` is the
number 5, prompt construction in stage 2 throws a `TypeError`, and the
run degrades as described. -/
theorem execute_never_throws_and_degrades_witness :
    TaskCreation.tryPipeline
      { extractResp := .ok "\x7b\x22urgencyIndicators\x22: 5\x7d", analyzeResp := .ok "\x7b\x7d" }
      "긴급 보고서 작성" = .error () ∧
    TaskCreation.execute
      { extractResp := .ok "\x7b\x22urgencyIndicators\x22: 5\x7d", analyzeResp := .ok "\x7b\x7d" }
      "긴급 보고서 작성" "u1" = TaskCreation.fallbackResult "긴급 보고서 작성" ∧
    (TaskCreation.execute
      { extractResp := .ok "\x7b\x22urgencyIndicators\x22: 5\x7d", analyzeResp := .ok "\x7b\x7d" }
      "긴급 보고서 작성" "u1").needsConfirmation = true ∧
    (TaskCreation.execute
      { extractResp := .ok "\x7b\x22urgencyIndicators\x22: 5\x7d", analyzeResp := .ok "\x7b\x7d" }
      "긴급 보고서 작성" "u1").confidence = .num (mkRat 3 10) := by
  have h : TaskCreation.tryPipeline
      { extractResp := .ok "\x7b\x22urgencyIndicators\x22: 5\x7d", analyzeResp := .ok "\x7b\x7d" }
      "긴급 보고서 작성" = .error () := by rfl
  have hc := execute_never_throws_and_degrades
    { extractResp := .ok "\x7b\x22urgencyIndicators\x22: 5\x7d", analyzeResp := .ok "\x7b\x7d" }
    "긴급 보고서 작성" "u1" h
  exact ⟨h, hc.1, hc.2.2.2.2.2.2.2.2.1, hc.2.2.2.2.2.2.2.2.2.1⟩

/-- C2: in both finalizers, a returned aggregate confidence strictly below
0.6 forces the confirmation flag. -/
theorem confirmation_floor :
    (∀ (e a : Jsv) (r : TaskCreationResult),
      TaskCreation.validateAndSuggest e a = .ok r →
      jsLtNum r.confidence (mkRat 3 5) = true → r.needsConfirmation = true) ∧
    (∀ (s s2 : TCState),
      Advanced.validateAndFinalize s = .ok s2 →
      jsLtNum s2.confidence (mkRat 3 5) = true → s2.needsHumanReview = true) := by
  constructor
  · intro e a r h hlt
    have hc := vas_ok_confidence e a r h
    have hn := vas_ok_needsConf e a r h
    rw [hc] at hlt
    rw [hn, hlt]
    simp
  · intro s s2 h hlt
    obtain ⟨hc, _, hn, _⟩ := vaf_ok_inv s s2 h
    rw [hc] at hlt
    rw [hn, hlt]
    simp

/-- Witness for C2: extraction confidence 0.05 and an empty assessment give
aggregate confidence 0.55 and a set confirmation flag. -/
theorem confirmation_floor_witness :
    jsLtNum (getOkD (TaskCreation.fallbackResult "")
      (TaskCreation.validateAndSuggest (.obj [("confidence", .num (mkRat 1 20))])
        (.obj []))).confidence (mkRat 3 5) = true ∧
    (getOkD (TaskCreation.fallbackResult "")
      (TaskCreation.validateAndSuggest (.obj [("confidence", .num (mkRat 1 20))])
        (.obj []))).needsConfirmation = true :=
  ⟨by decide,
   confirmation_floor.1 (.obj [("confidence", .num (mkRat 1 20))]) (.obj []) _
     (by rfl) (by decide)⟩

/-- C10: the pipeline result does not depend on `userId`: with the same
completion-client responses, any two user identifiers produce the same
result (the source only logs the identifier). -/
theorem userId_independence :
    ∀ (env : Env) (input u1 u2 : String),
      TaskCreation.execute env input u1 = TaskCreation.execute env input u2 := by
  intro env input u1 u2
  rfl

/-- Counterexample for C3: a model-reported assessment confidence of -1
drives the returned aggregate confidence to -0.7, below the claimed lower
bound 0. -/
theorem confidence_lower_bound_counterexample :
    (TaskCreation.execute
      { extractResp := .error (), analyzeResp := .ok "\x7b\x22confidence\x22: -1\x7d" }
      "회의 준비" "u1").confidence = Jsv.num (mkRat (-7) 10) ∧
    mkRat (-7) 10 < 0 :=
  ⟨by rfl, by decide⟩

/-- C3 as amended: the aggregate confidence is capped at 1, and it is
within [0,1] provided the per-stage confidences feeding the combination
(after the falsy-defaulting) are nonnegative — a negative model-reported
confidence escapes the lower bound, as the counterexample shows. Stated
for `validateAndSuggest` and for the advanced `analyzePriority`
accumulation. -/
theorem confidence_bounds_amended :
    (∀ (e a : Jsv) (r : TaskCreationResult) (qe qa : ℚ),
      TaskCreation.validateAndSuggest e a = .ok r →
      jsOr (getField e "confidence") (.num (mkRat 1 2)) = .num qe →
      jsOr (getField a "confidence") (.num (mkRat 1 2)) = .num qa →
      0 ≤ qe → 0 ≤ qa →
      ∃ q : ℚ, r.confidence = .num q ∧ 0 ≤ q ∧ q ≤ 1) ∧
    (∀ (env : Env) (s s2 : TCState) (q qa : ℚ),
      Advanced.analyzePriority env s = .ok s2 →
      s.confidence = .num q → 0 ≤ q → q ≤ 1 →
      jsOr (getField s2.priorityAnalysis "confidence") (.num (mkRat 3 10)) = .num qa →
      0 ≤ qa →
      ∃ q2 : ℚ, s2.confidence = .num q2 ∧ 0 ≤ q2 ∧ q2 ≤ 1) := by
  constructor
  · intro e a r qe qa h h1 h2 hqe hqa
    have hc := vas_ok_confidence e a r h
    rw [TaskCreation.overallConfidence, h1, h2, jsAdd_num_num, jsMathMin_num] at hc
    refine ⟨min (qAdd qe qa) 1, hc, ?_, min_le_right _ _⟩
    rw [qAdd_eq]
    exact le_min (add_nonneg hqe hqa) zero_le_one
  · intro env s s2 q qa h hq hq0 hq1 hqa hqa0
    cases hpp : Advanced.priorityPrompt s.extractedInfo with
    | error x => simp [Advanced.analyzePriority, hpp, bind, Except.bind] at h
    | ok pr =>
      cases henv : env.analyzeResp with
      | ok resp =>
        simp [Advanced.analyzePriority, hpp, henv, bind, Except.bind] at h
        subst h
        simp only at hqa
        refine ⟨min (qAdd q qa) 1, ?_, ?_, min_le_right _ _⟩
        · show jsMathMin (jsAdd s.confidence
            (jsOr (getField (parseJSON resp) "confidence") (.num (mkRat 3 10)))) 1 = _
          rw [hq, hqa, jsAdd_num_num, jsMathMin_num]
        · rw [qAdd_eq]
          exact le_min (add_nonneg hq0 hqa0) zero_le_one
      | error x =>
        simp [Advanced.analyzePriority, hpp, henv, bind, Except.bind] at h
        subst h
        exact ⟨q, hq, hq0, hq1⟩

/-- Witness for the amended C3: a well-formed run of each combination
stays in [0,1]. -/
theorem confidence_bounds_amended_witness :
    (∃ q : ℚ,
      (getOkD (TaskCreation.fallbackResult "")
        (TaskCreation.validateAndSuggest (.obj [("confidence", .num (mkRat 1 2))])
          (.obj []))).confidence = .num q ∧ 0 ≤ q ∧ q ≤ 1) ∧
    (∃ q2 : ℚ,
      (getOkD (Advanced.initialState "" "")
        (Advanced.analyzePriority { extractResp := .error (), analyzeResp := .ok "\x7b\x7d" }
          (Advanced.initialState "일정 정리" "u1"))).confidence = .num q2 ∧ 0 ≤ q2 ∧ q2 ≤ 1) :=
  ⟨confidence_bounds_amended.1 (.obj [("confidence", .num (mkRat 1 2))]) (.obj []) _
      (mkRat 1 2) (mkRat 1 2) (by rfl) (by rfl) (by rfl) (by decide) (by decide),
   confidence_bounds_amended.2 { extractResp := .error (), analyzeResp := .ok "\x7b\x7d" }
      (Advanced.initialState "일정 정리" "u1") _ 0 (mkRat 3 10)
      (by rfl) (by rfl) (by decide) (by decide) (by rfl) (by decide)⟩

/-- Counterexample for C4: an assessment confidence that is present but
zero is replaced by 0.5 by the falsy-defaulting `||`, so with extraction
confidence 0.8 the code returns aggregate confidence 1, while the claimed
formula (defaulting only missing values) yields 0.8. -/
theorem aggregate_confidence_formula_counterexample :
    (getOkD (TaskCreation.fallbackResult "")
      (TaskCreation.validateAndSuggest (.obj [("confidence", .num (mkRat 4 5))])
        (.obj [("confidence", .num 0)]))).confidence = Jsv.num 1 ∧
    specAggregateConfidence (some (mkRat 4 5)) (some 0) = mkRat 4 5 ∧
    (1 : ℚ) ≠ mkRat 4 5 := by
  refine ⟨by rfl, ?_, by decide⟩
  unfold specAggregateConfidence
  rw [Rat.mkRat_eq_div]
  norm_num

/-- C4 as amended: the finalizer computes
`min((e.confidence || 0.5) + (a.confidence || 0.5), 1)` — additive and
capped, never averaged — where the `||`-defaulting replaces not only a
missing confidence but every falsy one (zero included) by 0.5. -/
theorem aggregate_confidence_formula_amended :
    (∀ (e a : Jsv) (r : TaskCreationResult) (qe qa : ℚ),
      TaskCreation.validateAndSuggest e a = .ok r →
      jsOr (getField e "confidence") (.num (mkRat 1 2)) = .num qe →
      jsOr (getField a "confidence") (.num (mkRat 1 2)) = .num qa →
      r.confidence = .num (min (qe + qa) 1)) ∧
    (∀ v : Jsv, truthy v = false → jsOr v (.num (mkRat 1 2)) = .num (mkRat 1 2)) ∧
    jsOr (.num 0) (.num (mkRat 1 2)) = .num (mkRat 1 2) ∧
    jsOr Jsv.undefined (.num (mkRat 1 2)) = .num (mkRat 1 2) ∧
    (∀ q : ℚ, q ≠ 0 → jsOr (.num q) (.num (mkRat 1 2)) = .num q) := by
  refine ⟨?_, ?_, by rfl, by rfl, ?_⟩
  · intro e a r qe qa h h1 h2
    have hc := vas_ok_confidence e a r h
    rw [TaskCreation.overallConfidence, h1, h2, jsAdd_num_num, jsMathMin_num, qAdd_eq] at hc
    exact hc
  · intro v hv
    simp [jsOr, hv]
  · intro q hq
    simp [jsOr, truthy, hq]

/-- Witness for the amended C4: at the counterexample's input the formula
gives `min(0.8 + 0.5, 1) = 1`, matching the code. -/
theorem aggregate_confidence_formula_amended_witness :
    (getOkD (TaskCreation.fallbackResult "")
      (TaskCreation.validateAndSuggest (.obj [("confidence", .num (mkRat 4 5))])
        (.obj [("confidence", .num 0)]))).confidence =
      .num (min (mkRat 4 5 + mkRat 1 2) 1) :=
  aggregate_confidence_formula_amended.1 (.obj [("confidence", .num (mkRat 4 5))])
    (.obj [("confidence", .num 0)]) _ (mkRat 4 5) (mkRat 1 2) (by rfl) (by rfl) (by rfl)

/-- C5: with an urgent assessment and aggregate confidence in [0.6, 0.8),
both finalizers force confirmation and push the urgent re-verification
suggestion. -/
theorem urgent_stricter_bar :
    (∀ (e a : Jsv) (r : TaskCreationResult) (q : ℚ),
      TaskCreation.validateAndSuggest e a = .ok r →
      getField a "priority" = .str "urgent" →
      r.confidence = .num q → mkRat 3 5 ≤ q → q < mkRat 4 5 →
      r.needsConfirmation = true ∧
      "긴급한 작업입니다. 내용을 다시 확인해주세요." ∈ r.suggestions) ∧
    (∀ (s s2 : TCState) (q : ℚ),
      Advanced.validateAndFinalize s = .ok s2 →
      getField s.priorityAnalysis "priority" = .str "urgent" →
      s.confidence = .num q → mkRat 3 5 ≤ q → q < mkRat 4 5 →
      s2.needsHumanReview = true ∧
      "긴급한 작업입니다. 내용을 다시 확인해주세요." ∈ s2.suggestions) := by
  constructor
  · intro e a r q h hp hq h06 h08
    have hc := vas_ok_confidence e a r h
    have hov : TaskCreation.overallConfidence e a = .num q := by rw [← hc, hq]
    have hurg : (jsEqStrB (getField a "priority") "urgent" &&
        jsLtNum (TaskCreation.overallConfidence e a) (mkRat 4 5)) = true := by
      rw [hp, hov, jsLtNum_num]
      simp [jsEqStrB, h08]
    constructor
    · rw [vas_ok_needsConf e a r h, hurg]
      simp
    · rw [vas_ok_suggestions e a r h, hurg]
      simp
  · intro s s2 q h hp hq h06 h08
    obtain ⟨_, _, hn, hs⟩ := vaf_ok_inv s s2 h
    have hurg : (jsEqStrB (getField s.priorityAnalysis "priority") "urgent" &&
        jsLtNum s.confidence (mkRat 4 5)) = true := by
      rw [hp, hq, jsLtNum_num]
      simp [jsEqStrB, h08]
    constructor
    · rw [hn, hurg]
      simp
    · rw [hs, hurg]
      simp

/-- Witness for C5: aggregate confidence 0.7 with an urgent assessment
forces confirmation in both finalizers. -/
theorem urgent_stricter_bar_witness :
    ((getOkD (TaskCreation.fallbackResult "")
      (TaskCreation.validateAndSuggest (.obj [("confidence", .num (mkRat 1 2))])
        (.obj [("confidence", .num (mkRat 1 5)), ("priority", .str "urgent")]))).needsConfirmation = true ∧
     "긴급한 작업입니다. 내용을 다시 확인해주세요." ∈
      (getOkD (TaskCreation.fallbackResult "")
        (TaskCreation.validateAndSuggest (.obj [("confidence", .num (mkRat 1 2))])
          (.obj [("confidence", .num (mkRat 1 5)), ("priority", .str "urgent")]))).suggestions) ∧
    ((getOkD (Advanced.initialState "" "")
      (Advanced.validateAndFinalize
        { Advanced.initialState "긴급 장애 대응" "u1" with
          priorityAnalysis := .obj [("priority", .str "urgent")],
          confidence := .num (mkRat 7 10) })).needsHumanReview = true ∧
     "긴급한 작업입니다. 내용을 다시 확인해주세요." ∈
      (getOkD (Advanced.initialState "" "")
        (Advanced.validateAndFinalize
          { Advanced.initialState "긴급 장애 대응" "u1" with
            priorityAnalysis := .obj [("priority", .str "urgent")],
            confidence := .num (mkRat 7 10) })).suggestions) :=
  ⟨urgent_stricter_bar.1 (.obj [("confidence", .num (mkRat 1 2))])
      (.obj [("confidence", .num (mkRat 1 5)), ("priority", .str "urgent")]) _ (mkRat 7 10)
      (by rfl) (by rfl) (by rfl) (by decide) (by decide),
   urgent_stricter_bar.2
      { Advanced.initialState "긴급 장애 대응" "u1" with
        priorityAnalysis := .obj [("priority", .str "urgent")],
        confidence := .num (mkRat 7 10) } _ (mkRat 7 10)
      (by rfl) (by rfl) (by rfl) (by decide) (by decide)⟩

theorem jsGeNum_num (x q : ℚ) : jsGeNum (.num x) q = decide (q ≤ x) := rfl

theorem jsGtNum_num (x q : ℚ) : jsGtNum (.num x) q = decide (q < x) := rfl

/-- C6: when extraction yields complexity at least 4 (so in particular 5)
and the assessment is urgent, the risk detector emits the
`priority_complexity_mismatch` signal with severity high, and the
finalizer forces review regardless of the confidence value. -/
theorem urgency_complexity_mismatch_forces_review :
    ∀ (s : TCState) (qc : ℚ),
      getField s.extractedInfo "complexity" = .num qc → 4 ≤ qc →
      getField s.priorityAnalysis "priority" = .str "urgent" →
      (({ type := "priority_complexity_mismatch",
          message := "긴급하지만 복잡한 작업입니다", severity := "high" } : ConflictA) ∈
        (Advanced.detectConflicts s).conflicts) ∧
      (∀ s2 : TCState,
        Advanced.validateAndFinalize (Advanced.detectConflicts s) = .ok s2 →
        s2.needsHumanReview = true) := by
  intro s qc hc h4 hp
  have hch : jsGeNum (getField s.extractedInfo "complexity") 4 = true := by
    rw [hc, jsGeNum_num]
    exact decide_eq_true h4
  have hu : jsEqStrB (getField s.priorityAnalysis "priority") "urgent" = true := by
    rw [hp]
    simp [jsEqStrB]
  have hmem : (⟨"priority_complexity_mismatch", "긴급하지만 복잡한 작업입니다", "high"⟩ : ConflictA) ∈
      (Advanced.detectConflicts s).conflicts := by
    simp only [Advanced.detectConflicts, hch, hu]
    simp
  refine ⟨hmem, ?_⟩
  intro s2 h2
  obtain ⟨_, _, hn, _⟩ := vaf_ok_inv _ s2 h2
  rw [hn]
  have hrisk : (Advanced.detectConflicts s).conflicts.any
      (fun c => c.severity = "high") = true :=
    List.any_eq_true.mpr ⟨_, hmem, by decide⟩
  rw [hrisk]
  simp

/-- Witness for C6: complexity 5 and an urgent assessment at confidence
0.7 (so not below the 0.6 floor) still force review through the
high-severity mismatch signal. -/
theorem urgency_complexity_mismatch_forces_review_witness :
    (({ type := "priority_complexity_mismatch",
        message := "긴급하지만 복잡한 작업입니다", severity := "high" } : ConflictA) ∈
      (Advanced.detectConflicts
        { Advanced.initialState "긴급 시스템 개편" "u1" with
          extractedInfo := .obj [("complexity", .num 5)],
          priorityAnalysis := .obj [("priority", .str "urgent")],
          confidence := .num (mkRat 7 10) }).conflicts) ∧
    jsLtNum (Jsv.num (mkRat 7 10)) (mkRat 3 5) = false ∧
    (getOkD (Advanced.initialState "" "")
      (Advanced.validateAndFinalize (Advanced.detectConflicts
        { Advanced.initialState "긴급 시스템 개편" "u1" with
          extractedInfo := .obj [("complexity", .num 5)],
          priorityAnalysis := .obj [("priority", .str "urgent")],
          confidence := .num (mkRat 7 10) }))).needsHumanReview = true := by
  have h := urgency_complexity_mismatch_forces_review
    { Advanced.initialState "긴급 시스템 개편" "u1" with
      extractedInfo := .obj [("complexity", .num 5)],
      priorityAnalysis := .obj [("priority", .str "urgent")],
      confidence := .num (mkRat 7 10) } 5 (by rfl) (by decide) (by rfl)
  exact ⟨h.1, by decide, h.2 _ (by rfl)⟩

/-- C8: a duration above 240 minutes yields exactly one risk signal, of
kind `duration` and severity medium, and — severity high being the only
forcing severity — a non-urgent assessment with confidence at least 0.6
leaves the review flag off. -/
theorem duration_signal_medium_not_forcing :
    ∀ (s : TCState) (qd qc q : ℚ) (ps : String),
      getField s.extractedInfo "estimatedDuration" = .num qd → 240 < qd →
      getField s.extractedInfo "complexity" = .num qc → qc < 4 →
      getField s.priorityAnalysis "priority" = .str ps → ps ≠ "urgent" →
      s.confidence = .num q → mkRat 3 5 ≤ q →
      (Advanced.detectConflicts s).conflicts =
        [{ type := "duration", message := "장시간 소요 작업입니다", severity := "medium" }] ∧
      (∀ s2 : TCState,
        Advanced.validateAndFinalize (Advanced.detectConflicts s) = .ok s2 →
        s2.needsHumanReview = false) := by
  intro s qd qc q ps hd h240 hc h4 hp hps hq h06
  have hdur : jsGtNum (getField s.extractedInfo "estimatedDuration") 240 = true := by
    rw [hd, jsGtNum_num]
    exact decide_eq_true h240
  have hch : jsGeNum (getField s.extractedInfo "complexity") 4 = false := by
    rw [hc, jsGeNum_num]
    simp [not_le.mpr h4]
  have hconf : (Advanced.detectConflicts s).conflicts =
      [{ type := "duration", message := "장시간 소요 작업입니다", severity := "medium" }] := by
    simp [Advanced.detectConflicts, hch, hdur]
  refine ⟨hconf, ?_⟩
  intro s2 h2
  obtain ⟨_, _, hn, _⟩ := vaf_ok_inv _ s2 h2
  have hcf : (Advanced.detectConflicts s).confidence = s.confidence := by
    simp [Advanced.detectConflicts]
  have hpa : (Advanced.detectConflicts s).priorityAnalysis = s.priorityAnalysis := by
    simp [Advanced.detectConflicts]
  rw [hn, hcf, hpa, hconf, hq, hp]
  simp [jsLtNum_num, jsEqStrB, not_lt.mpr h06, hps]

/-- Witness for C8: duration 300, complexity 2, medium priority and
confidence 0.7 leave `needsHumanReview` off with the single medium
duration signal. -/
theorem duration_signal_medium_not_forcing_witness :
    (Advanced.detectConflicts
      { Advanced.initialState "보고서 작성" "u1" with
        extractedInfo := .obj [("estimatedDuration", .num 300), ("complexity", .num 2)],
        priorityAnalysis := .obj [("priority", .str "medium")],
        confidence := .num (mkRat 7 10) }).conflicts =
      [{ type := "duration", message := "장시간 소요 작업입니다", severity := "medium" }] ∧
    (getOkD (Advanced.initialState "" "")
      (Advanced.validateAndFinalize (Advanced.detectConflicts
        { Advanced.initialState "보고서 작성" "u1" with
          extractedInfo := .obj [("estimatedDuration", .num 300), ("complexity", .num 2)],
          priorityAnalysis := .obj [("priority", .str "medium")],
          confidence := .num (mkRat 7 10) }))).needsHumanReview = false := by
  have h := duration_signal_medium_not_forcing
    { Advanced.initialState "보고서 작성" "u1" with
      extractedInfo := .obj [("estimatedDuration", .num 300), ("complexity", .num 2)],
      priorityAnalysis := .obj [("priority", .str "medium")],
      confidence := .num (mkRat 7 10) } 300 2 (mkRat 7 10) "medium"
    (by rfl) (by decide) (by rfl) (by decide) (by rfl) (by decide) (by rfl) (by decide)
  exact ⟨h.1, h.2 _ (by rfl)⟩

/-- Counterexample for C7: when the extraction model call succeeds but its
response contains no decodable JSON, `parseJSON` yields the empty object,
no title is derived from the input, and the finalized task's title is
`undefined` — empty despite a non-empty input. -/
theorem title_nonempty_counterexample :
    taskTitle (TaskCreation.execute
      { extractResp := .ok "no json here", analyzeResp := .error () }
      "회의 준비" "u1").task = Jsv.undefined ∧
    ("회의 준비" : String) ≠ "" := by
  exact ⟨by rfl, by decide⟩

/-- C7 as amended: when the extraction model call itself throws, the
returned task's title is the input truncated to 50 UTF-16 units with an
ellipsis marker — non-empty for non-empty input — on every continuation
of the pipeline; but when the call succeeds with a response containing no
decodable JSON, the title is `undefined` (see the counterexample). -/
theorem title_on_extraction_throw_amended :
    ∀ (env : Env) (input userId : String),
      env.extractResp = .error () →
      taskTitle (TaskCreation.execute env input userId).task = .str (jsTruncate50 input) ∧
      (input ≠ "" → jsTruncate50 input ≠ "") := by
  intro env input uid hex
  constructor
  · have hei : TaskCreation.extractDetailedInformation env input =
        TaskCreation.fallbackExtraction input := by
      simp [TaskCreation.extractDetailedInformation, hex]
    have htitle : getField (TaskCreation.fallbackExtraction input) "title" =
        .str (jsTruncate50 input) := rfl
    simp only [TaskCreation.execute, TaskCreation.tryPipeline, hei]
    cases ha : TaskCreation.analyzeTaskComplexity env (TaskCreation.fallbackExtraction input) with
    | error x =>
      simp [bind, Except.bind, ha, taskTitle, TaskCreation.fallbackResult,
        TaskCreation.createBasicTask]
    | ok a =>
      simp only [bind, Except.bind, ha]
      cases hv : TaskCreation.validateAndSuggest (TaskCreation.fallbackExtraction input) a with
      | error x =>
        simp [taskTitle, TaskCreation.fallbackResult, TaskCreation.createBasicTask]
      | ok r =>
        obtain ⟨t, htask, httl⟩ := vas_ok_title _ _ _ hv
        simp [htask, taskTitle, httl, htitle]
  · intro hne
    unfold jsTruncate50
    split
    · intro h
      have h3 := congrArg String.length h
      rw [String.length_append] at h3
      have e1 : ("..." : String).length = 3 := rfl
      have e2 : ("" : String).length = 0 := rfl
      rw [e1, e2] at h3
      omega
    · exact hne

/-- Witness for the amended C7: a connection failure on the extraction
call leaves the short input itself as the title. -/
theorem title_on_extraction_throw_amended_witness :
    taskTitle (TaskCreation.execute { extractResp := .error (), analyzeResp := .error () }
      "회의 준비" "u1").task = .str (jsTruncate50 "회의 준비") ∧
    jsTruncate50 "회의 준비" ≠ "" :=
  ⟨(title_on_extraction_throw_amended { extractResp := .error (), analyzeResp := .error () }
      "회의 준비" "u1" (by rfl)).1,
   (title_on_extraction_throw_amended { extractResp := .error (), analyzeResp := .error () }
      "회의 준비" "u1" (by rfl)).2 (by decide)⟩

/-- Counterexample for C9: the heuristic fallback of
`TaskCreationWorkflow` (`fallbackExtraction`) returns an empty tag list on
the claimed input, not the hash-derived set. -/
theorem fallback_tags_counterexample :
    getField (TaskCreation.fallbackExtraction "회의 준비 #긴급 #보고서") "tags" = Jsv.arr [] ∧
    Jsv.arr [] ≠ Jsv.arr [.str "긴급", .str "보고서"] := by
  refine ⟨by rfl, ?_⟩
  intro h
  simp at h

/-- C9 as amended: it is `AiService.fallbackParsing` whose tags are
exactly the whitespace-separated words of the input starting with a hash,
with the hash stripped — on the claimed input they are 긴급 and 보고서 —
while the `TaskCreationWorkflow` fallback (`fallbackExtraction`) always
returns an empty tag list. -/
theorem fallback_tags_amended :
    (∀ (nowMs : ℚ) (input w : String),
      w ∈ (AiService.fallbackParsing nowMs input).tags ↔
      ∃ t, t ∈ jsSplitWs input ∧ jsStartsWith t "#" = true ∧ t.drop 1 = w) ∧
    (AiService.fallbackParsing 0 "회의 준비 #긴급 #보고서").tags = ["긴급", "보고서"] ∧
    (∀ input : String, getField (TaskCreation.fallbackExtraction input) "tags" = Jsv.arr []) := by
  refine ⟨?_, by rfl, fun input => rfl⟩
  intro nowMs input w
  simp [AiService.fallbackParsing, List.mem_map, List.mem_filter, and_assoc]
